import Mathlib

/-!
Shallow embedding of the ngx-surreal adapter library.

Sources embedded here:
* `src/lib/surreal.service.ts` — the `SurrealService` adapter: one method per
  driver operation, each returning `from(this.db.<op>(...))`, plus the
  `computed` accessors `connection` / `emitter` / `status`, and a constructor
  that calls `this.connect().subscribe()`.
* `src/lib/surreal.module.ts` — `SurrealModule` with its duplicate-registration
  guard and the `forRoot` providers (config token + service factory).
* `src/lib/surreal.config.ts` — `SurrealConfig = ConnectionOptions & { url }`.

Host-environment semantics the embedding relies on (each noted at its
definition): JavaScript strict evaluation (the driver promise is created when
the adapter method runs), rxjs `from` over a promise (each subscription
delivers the settled outcome; it re-runs nothing), rxjs `subscribe()` without
an error callback (errors are reported as unhandled to the host), Angular
`computed` (memoizes; with no reactive producers it never recomputes), and the
WHATWG `URL` constructor (throws `TypeError` on input without a valid scheme).
-/

/-- JavaScript runtime values, as far as the adapter's data flow needs them:
primitive values, arrays, plain objects, and `URL` objects (represented by
their href). Driver results and rejection reasons are arbitrary `JSVal`s. -/
inductive JSVal where
  | undef
  | null
  | boolv (b : Bool)
  | numv (n : Int)
  | strv (s : String)
  | arrv (elems : List JSVal)
  | objv (fields : List (String × JSVal))
  | urlv (href : String)

/-- JavaScript falsiness, used by `insert` / `insertRelation` (`!table`):
`undefined`, `null`, `false`, `0` and the empty string are falsy. -/
def JSVal.isFalsy : JSVal → Bool
  | .undef => true
  | .null => true
  | .boolv b => !b
  | .numv n => n == 0
  | .strv s => s == ""
  | _ => false

/-- A settled promise: the driver in this model is deterministic, so a promise
is its outcome — resolved value or rejection reason. -/
def JSPromise : Type := Except JSVal JSVal

/-- Events an rxjs observer receives. -/
inductive RxEvent where
  | next (v : JSVal)
  | error (e : JSVal)
  | complete

/-- A single-shot rxjs observable as produced by `from(promise)`: it carries
the settled outcome of the promise it wraps. -/
structure Observable where
  outcome : Except JSVal JSVal

/-- rxjs `from` applied to a promise. -/
def rxFrom (p : JSPromise) : Observable := ⟨p⟩

/-- rxjs subscription semantics for `from(promise)`: a resolved promise yields
one `next` then `complete`; a rejected promise yields one `error`. Each
subscription merely attaches to the already-created promise, so subscribing is
a pure function of the observable — it invokes nothing in the driver. -/
def Observable.subscribeEvents (o : Observable) : List RxEvent :=
  match o.outcome with
  | .ok v => [RxEvent.next v, RxEvent.complete]
  | .error e => [RxEvent.error e]

/-- One invocation of a driver (`surrealdb` `Surreal`) method: which client
instance received it, the method name, and the argument list passed. -/
structure DriverCall where
  clientId : Nat
  method : String
  args : List JSVal

/-- The behaviour of the wrapped driver, treated as an opaque external
dependency: every call settles to a resolved value or a rejection reason. -/
def DriverBehavior : Type := DriverCall → Except JSVal JSVal

/-- Mutable host state the embedding tracks: the chronological log of driver
calls, how many `new Surreal()` client instances were constructed, and errors
reported to the host as unhandled. -/
structure World where
  driverLog : List DriverCall
  clientsCreated : Nat
  unhandledErrors : List JSVal

/-- Calling a driver method: JavaScript strict evaluation creates the promise
(and performs the call's side effects) at the call site, so the call is
logged now — before any subscription to the wrapping observable exists. -/
def invoke (d : DriverBehavior) (cid : Nat) (m : String) (args : List JSVal)
    (w : World) : JSPromise × World :=
  (d ⟨cid, m, args⟩, { w with driverLog := w.driverLog ++ [⟨cid, m, args⟩] })

/-- Wrap a driver call's promise in an observable, `from(promise)`. -/
def wrap (pw : JSPromise × World) : Observable × World :=
  (rxFrom pw.1, pw.2)

/-- WHATWG URL scheme characters after the first: ASCII alphanumeric or
`+`, `-`, `.`. -/
def isSchemeChar (c : Char) : Bool :=
  c.isAlphanum || c == '+' || c == '-' || c == '.'

/-- Scan the remainder of a candidate scheme up to `:`. -/
def schemeTail : List Char → Bool
  | [] => false
  | ':' :: _ => true
  | c :: rest => isSchemeChar c && schemeTail rest

/-- The WHATWG `new URL(input)` constructor, as far as the adapter depends on
it: it throws a `TypeError` when `input` has no valid scheme (for instance on
the empty string) and otherwise yields a `URL` object. The href is modelled
opaquely as the input itself; normalization is irrelevant to the claims. -/
def parseURL (input : String) : Option String :=
  match input.toList with
  | [] => none
  | c :: rest => if c.isAlpha && schemeTail rest then some input else none

/-- The `TypeError` that `new URL(input)` throws on an unparsable input. -/
def invalidURLError (input : String) : JSVal :=
  .objv [("name", .strv "TypeError"), ("message", .strv "Invalid URL"),
         ("input", .strv input)]

/-- `surreal.config.ts`: `SurrealConfig = ConnectionOptions & { url: string }`.
The connection options other than `url` (namespace, database, auth, prepare,
version-check toggles) are carried opaquely as object fields. -/
structure SurrealConfig where
  url : String
  options : List (String × JSVal)

/-- The adapter service value: it owns one driver client (`db = new Surreal()`,
identified by `clientId`) and the injected configuration
(`config = inject(SURREAL_CONFIG_TOKEN)`). -/
structure SurrealService where
  clientId : Nat
  config : SurrealConfig

/-- `surreal.service.ts` lines 54-57:
`connect() { const { url, ...options } = this.config;
return from(this.db.connect(new URL(url), options)); }`.
`new URL(url)` runs before the driver call, so an unparsable configured url
throws synchronously (`Except.error`) and the driver is never invoked. -/
def SurrealService.connect (d : DriverBehavior) (svc : SurrealService)
    (w : World) : Except JSVal (Observable × World) :=
  match parseURL svc.config.url with
  | none => .error (invalidURLError svc.config.url)
  | some href =>
      .ok (wrap (invoke d svc.clientId "connect"
        [.urlv href, .objv svc.config.options] w))

/-- rxjs `subscribe()` with no observer argument: values and completion are
dropped; an error emission has no handler and is reported to the host
environment as an unhandled error. -/
def subscribeNoHandler (o : Observable) (w : World) : World :=
  match o.outcome with
  | .ok _ => w
  | .error e => { w with unhandledErrors := w.unhandledErrors ++ [e] }

/-- `surreal.service.ts` lines 28-33: field initializer `db = new Surreal()`
(one fresh client instance), injected `config`, and the constructor body
`this.connect().subscribe()`. If `new URL` throws inside `connect`, the
exception propagates out of the constructor and no service is produced;
otherwise the service is returned even when the driver's connect promise
rejects (the rejection only reaches the host as an unhandled error). -/
def constructService (d : DriverBehavior) (config : SurrealConfig)
    (w : World) : Except JSVal (SurrealService × World) :=
  let svc : SurrealService := ⟨w.clientsCreated, config⟩
  let w1 : World := { w with clientsCreated := w.clientsCreated + 1 }
  match svc.connect d w1 with
  | .error e => .error e
  | .ok (obs, w2) => .ok (svc, subscribeNoHandler obs w2)

/-- `authenticate(...args) { return from(this.db.authenticate(...args)); }` -/
def SurrealService.authenticate (d : DriverBehavior) (svc : SurrealService)
    (args : List JSVal) (w : World) : Observable × World :=
  wrap (invoke d svc.clientId "authenticate" args w)

/-- `close() { return from(this.db.close()); }` -/
def SurrealService.close (d : DriverBehavior) (svc : SurrealService)
    (w : World) : Observable × World :=
  wrap (invoke d svc.clientId "close" [] w)

/-- `create(thing, data) { return from(this.db.create<T, U>(thing, data)); }` -/
def SurrealService.create (d : DriverBehavior) (svc : SurrealService)
    (thing data : JSVal) (w : World) : Observable × World :=
  wrap (invoke d svc.clientId "create" [thing, data] w)

/-- `delete(thing) { return from(this.db.delete<T>(thing)); }` -/
def SurrealService.delete (d : DriverBehavior) (svc : SurrealService)
    (thing : JSVal) (w : World) : Observable × World :=
  wrap (invoke d svc.clientId "delete" [thing] w)

/-- Source method `export`: `return from(this.db.export(...args))`.
(`export` is a Lean keyword, hence the Lean name.) -/
def SurrealService.exportDb (d : DriverBehavior) (svc : SurrealService)
    (args : List JSVal) (w : World) : Observable × World :=
  wrap (invoke d svc.clientId "export" args w)

/-- Source method `import`: `return from(this.db.import(...args))`.
(`import` is a Lean keyword, hence the Lean name.) -/
def SurrealService.importDb (d : DriverBehavior) (svc : SurrealService)
    (args : List JSVal) (w : World) : Observable × World :=
  wrap (invoke d svc.clientId "import" args w)

/-- `info() { return from(this.db.info<T>()); }` -/
def SurrealService.info (d : DriverBehavior) (svc : SurrealService)
    (w : World) : Observable × World :=
  wrap (invoke d svc.clientId "info" [] w)

/-- `surreal.service.ts` lines 115-117: `insert(table, data) {
return !table ? from(this.db.insert<T, U>(data))
: from(this.db.insert<T, U>(table, data)); }` -/
def SurrealService.insert (d : DriverBehavior) (svc : SurrealService)
    (table data : JSVal) (w : World) : Observable × World :=
  if table.isFalsy then wrap (invoke d svc.clientId "insert" [data] w)
  else wrap (invoke d svc.clientId "insert" [table, data] w)

/-- `insertRelation(thing, data) {
return !thing ? from(this.db.insertRelation<T, U>(data))
: from(this.db.insertRelation<T, U>(thing, data)); }` -/
def SurrealService.insertRelation (d : DriverBehavior) (svc : SurrealService)
    (thing data : JSVal) (w : World) : Observable × World :=
  if thing.isFalsy then wrap (invoke d svc.clientId "insertRelation" [data] w)
  else wrap (invoke d svc.clientId "insertRelation" [thing, data] w)

/-- `invalidate() { return from(this.db.invalidate()); }` -/
def SurrealService.invalidate (d : DriverBehavior) (svc : SurrealService)
    (w : World) : Observable × World :=
  wrap (invoke d svc.clientId "invalidate" [] w)

/-- `kill(...args) { return from(this.db.kill(...args)); }` -/
def SurrealService.kill (d : DriverBehavior) (svc : SurrealService)
    (args : List JSVal) (w : World) : Observable × World :=
  wrap (invoke d svc.clientId "kill" args w)

/-- Source method `let`: `return from(this.db.let(...args))`.
(`let` is a Lean keyword, hence the Lean name.) -/
def SurrealService.letVar (d : DriverBehavior) (svc : SurrealService)
    (args : List JSVal) (w : World) : Observable × World :=
  wrap (invoke d svc.clientId "let" args w)

/-- `live(...args) { return from(this.db.live<T>(...args)); }` -/
def SurrealService.live (d : DriverBehavior) (svc : SurrealService)
    (args : List JSVal) (w : World) : Observable × World :=
  wrap (invoke d svc.clientId "live" args w)

/-- `merge(thing, data) { return from(this.db.merge<T, U>(thing, data)); }` -/
def SurrealService.merge (d : DriverBehavior) (svc : SurrealService)
    (thing data : JSVal) (w : World) : Observable × World :=
  wrap (invoke d svc.clientId "merge" [thing, data] w)

/-- `patch(thing, data, diff) { return from(this.db.patch<T>(thing, data,
diff as never)); }` — the `as never` is a compile-time cast, the runtime
value of `diff` is forwarded as is. -/
def SurrealService.patch (d : DriverBehavior) (svc : SurrealService)
    (thing data diff : JSVal) (w : World) : Observable × World :=
  wrap (invoke d svc.clientId "patch" [thing, data, diff] w)

/-- `ping() { return from(this.db.ping()); }` -/
def SurrealService.ping (d : DriverBehavior) (svc : SurrealService)
    (w : World) : Observable × World :=
  wrap (invoke d svc.clientId "ping" [] w)

/-- `query(...args) { return from(this.db.query<T>(...args)); }` -/
def SurrealService.query (d : DriverBehavior) (svc : SurrealService)
    (args : List JSVal) (w : World) : Observable × World :=
  wrap (invoke d svc.clientId "query" args w)

/-- `queryRaw(...args) { return from(this.db.queryRaw<T>(...args)); }` -/
def SurrealService.queryRaw (d : DriverBehavior) (svc : SurrealService)
    (args : List JSVal) (w : World) : Observable × World :=
  wrap (invoke d svc.clientId "queryRaw" args w)

/-- `ready() { return from(this.db.ready); }` — `db.ready` is the driver's
connection promise; reading it is logged here as a parameterless driver
interaction so that its outcome can drive the stream. -/
def SurrealService.ready (d : DriverBehavior) (svc : SurrealService)
    (w : World) : Observable × World :=
  wrap (invoke d svc.clientId "ready" [] w)

/-- `relate(fromRecord, thing, toRecord, data) {
return from(this.db.relate<T, U>(fromRecord, thing, toRecord, data)); }` -/
def SurrealService.relate (d : DriverBehavior) (svc : SurrealService)
    (fromRecord thing toRecord data : JSVal) (w : World) : Observable × World :=
  wrap (invoke d svc.clientId "relate" [fromRecord, thing, toRecord, data] w)

/-- `rpc(...args) { return from(this.db.rpc<T>(...args)); }` -/
def SurrealService.rpc (d : DriverBehavior) (svc : SurrealService)
    (args : List JSVal) (w : World) : Observable × World :=
  wrap (invoke d svc.clientId "rpc" args w)

/-- `surreal.service.ts` lines 260-264: `run(name, versionOrArgs, args) {
return typeof versionOrArgs === 'string'
? from(this.db.run<T>(name, versionOrArgs, args))
: from(this.db.run<T>(name, args)); }` — note that the second branch forwards
the (there always undefined) third parameter `args`, not `versionOrArgs`. -/
def SurrealService.run (d : DriverBehavior) (svc : SurrealService)
    (name versionOrArgs args : JSVal) (w : World) : Observable × World :=
  match versionOrArgs with
  | .strv s => wrap (invoke d svc.clientId "run" [name, .strv s, args] w)
  | _ => wrap (invoke d svc.clientId "run" [name, args] w)

/-- `select(thing) { return from(this.db.select<T>(thing)); }` -/
def SurrealService.select (d : DriverBehavior) (svc : SurrealService)
    (thing : JSVal) (w : World) : Observable × World :=
  wrap (invoke d svc.clientId "select" [thing] w)

/-- `signin(...args) { return from(this.db.signin(...args)); }` -/
def SurrealService.signin (d : DriverBehavior) (svc : SurrealService)
    (args : List JSVal) (w : World) : Observable × World :=
  wrap (invoke d svc.clientId "signin" args w)

/-- `signup(...args) { return from(this.db.signup(...args)); }` -/
def SurrealService.signup (d : DriverBehavior) (svc : SurrealService)
    (args : List JSVal) (w : World) : Observable × World :=
  wrap (invoke d svc.clientId "signup" args w)

/-- `subscribeLive(...args) { return from(this.db.subscribeLive<R>(...args)); }` -/
def SurrealService.subscribeLive (d : DriverBehavior) (svc : SurrealService)
    (args : List JSVal) (w : World) : Observable × World :=
  wrap (invoke d svc.clientId "subscribeLive" args w)

/-- `unsubscribeLive(...args) { return from(this.db.unSubscribeLive<R>(...args)); }`
— the driver method name differs in case from the adapter method name. -/
def SurrealService.unsubscribeLive (d : DriverBehavior) (svc : SurrealService)
    (args : List JSVal) (w : World) : Observable × World :=
  wrap (invoke d svc.clientId "unSubscribeLive" args w)

/-- `unset(...args) { return from(this.db.unset(...args)); }` -/
def SurrealService.unset (d : DriverBehavior) (svc : SurrealService)
    (args : List JSVal) (w : World) : Observable × World :=
  wrap (invoke d svc.clientId "unset" args w)

/-- `update(thing, data) { return from(this.db.update<T, U>(thing, data)); }` -/
def SurrealService.update (d : DriverBehavior) (svc : SurrealService)
    (thing data : JSVal) (w : World) : Observable × World :=
  wrap (invoke d svc.clientId "update" [thing, data] w)

/-- `upsert(thing, data) { return from(this.db.upsert<T, U>(thing, data)); }` -/
def SurrealService.upsert (d : DriverBehavior) (svc : SurrealService)
    (thing data : JSVal) (w : World) : Observable × World :=
  wrap (invoke d svc.clientId "upsert" [thing, data] w)

/-- `use(options) { return from(this.db.use(options)); }` -/
def SurrealService.use (d : DriverBehavior) (svc : SurrealService)
    (options : JSVal) (w : World) : Observable × World :=
  wrap (invoke d svc.clientId "use" [options] w)

/-- `version() { return from(this.db.version()); }` -/
def SurrealService.version (d : DriverBehavior) (svc : SurrealService)
    (w : World) : Observable × World :=
  wrap (invoke d svc.clientId "version" [] w)

/-- The public operations of `SurrealService`, one constructor per adapter
method (`letOp`, `importOp`, `exportOp` stand for the source names `let`,
`import`, `export`, which are Lean keywords). -/
inductive AdapterOp where
  | authenticateOp | closeOp | connectOp | createOp | deleteOp | exportOp
  | importOp | infoOp | insertOp | insertRelationOp | invalidateOp | killOp
  | letOp | liveOp | mergeOp | patchOp | pingOp | queryOp | queryRawOp
  | readyOp | relateOp | rpcOp | runOp | selectOp | signinOp | signupOp
  | subscribeLiveOp | unsubscribeLiveOp | unsetOp | updateOp | upsertOp
  | useOp | versionOp
  deriving DecidableEq

/-- The `i`-th caller argument; a JavaScript parameter a caller did not supply
binds to `undefined`. -/
def argAt (args : List JSVal) (i : Nat) : JSVal := args.getD i JSVal.undef

/-- Invoking one adapter method on a service instance with a caller-supplied
argument list. Methods declared with `...args` rest parameters receive the
list as is; methods with named parameters bind them positionally, extra
arguments being ignored and missing ones binding to `undefined` (JavaScript
call semantics). Only `connect` can fail synchronously (its `new URL`). -/
def callOp (d : DriverBehavior) (svc : SurrealService) (op : AdapterOp)
    (args : List JSVal) (w : World) : Except JSVal (Observable × World) :=
  match op with
  | .authenticateOp => .ok (svc.authenticate d args w)
  | .closeOp => .ok (svc.close d w)
  | .connectOp => svc.connect d w
  | .createOp => .ok (svc.create d (argAt args 0) (argAt args 1) w)
  | .deleteOp => .ok (svc.delete d (argAt args 0) w)
  | .exportOp => .ok (svc.exportDb d args w)
  | .importOp => .ok (svc.importDb d args w)
  | .infoOp => .ok (svc.info d w)
  | .insertOp => .ok (svc.insert d (argAt args 0) (argAt args 1) w)
  | .insertRelationOp =>
      .ok (svc.insertRelation d (argAt args 0) (argAt args 1) w)
  | .invalidateOp => .ok (svc.invalidate d w)
  | .killOp => .ok (svc.kill d args w)
  | .letOp => .ok (svc.letVar d args w)
  | .liveOp => .ok (svc.live d args w)
  | .mergeOp => .ok (svc.merge d (argAt args 0) (argAt args 1) w)
  | .patchOp => .ok (svc.patch d (argAt args 0) (argAt args 1) (argAt args 2) w)
  | .pingOp => .ok (svc.ping d w)
  | .queryOp => .ok (svc.query d args w)
  | .queryRawOp => .ok (svc.queryRaw d args w)
  | .readyOp => .ok (svc.ready d w)
  | .relateOp => .ok (svc.relate d (argAt args 0) (argAt args 1)
      (argAt args 2) (argAt args 3) w)
  | .rpcOp => .ok (svc.rpc d args w)
  | .runOp => .ok (svc.run d (argAt args 0) (argAt args 1) (argAt args 2) w)
  | .selectOp => .ok (svc.select d (argAt args 0) w)
  | .signinOp => .ok (svc.signin d args w)
  | .signupOp => .ok (svc.signup d args w)
  | .subscribeLiveOp => .ok (svc.subscribeLive d args w)
  | .unsubscribeLiveOp => .ok (svc.unsubscribeLive d args w)
  | .unsetOp => .ok (svc.unset d args w)
  | .updateOp => .ok (svc.update d (argAt args 0) (argAt args 1) w)
  | .upsertOp => .ok (svc.upsert d (argAt args 0) (argAt args 1) w)
  | .useOp => .ok (svc.use d (argAt args 0) w)
  | .versionOp => .ok (svc.version d w)

/-- The error the module throws on duplicate registration,
`new Error('SurrealModule is already loaded. Import it in the AppModule or AppConfig only')`. -/
def duplicateModuleError : JSVal :=
  .objv [("name", .strv "Error"),
         ("message", .strv "SurrealModule is already loaded. Import it in the AppModule or AppConfig only")]

/-- `surreal.module.ts`: the `SurrealModule` class carries no state of its
own; only its existence in an injector hierarchy matters. -/
structure SurrealModule where

/-- `surreal.module.ts` lines 11-13: `constructor(@Optional() @SkipSelf()
parentModule?: SurrealModule) { if (parentModule) throw new Error(...); }` —
`parentModule` is the `SurrealModule` instance already visible in the
overlapping (ancestor) injector scope, if any. The throw is synchronous:
the constructor either throws or yields the module instance. -/
def constructModule (parentModule : Option SurrealModule) :
    Except JSVal SurrealModule :=
  match parentModule with
  | some _ => .error duplicateModuleError
  | none => .ok ⟨⟩

/-- One dependency-injection scope: whether a `SurrealModule` instance is
already loaded in it, the configuration bound to `SURREAL_CONFIG_TOKEN` by
`forRoot`, the memoized singleton the injector holds for `SurrealService`,
and the host state. -/
structure Scope where
  moduleInstance : Option SurrealModule
  config : Option SurrealConfig
  serviceCache : Option SurrealService
  world : World

/-- Registering `SurrealModule.forRoot(config)` in a scope: Angular
instantiates the module class (running the duplicate-registration guard) and,
on success, installs the `forRoot` providers — the config bound to
`SURREAL_CONFIG_TOKEN` by `useValue` and the `SurrealService` factory (which
runs only when the service is first requested). A throw from the module
constructor aborts registration before anything else happens, so the scope is
returned unchanged alongside the error. -/
def Scope.register (config : SurrealConfig) (s : Scope) :
    Except JSVal Unit × Scope :=
  match constructModule s.moduleInstance with
  | .error e => (.error e, s)
  | .ok m => (.ok (), { s with moduleInstance := some m, config := some config })

/-- The error Angular raises when `SurrealService` is requested but no
provider for its configuration token exists. -/
def noProviderError : JSVal :=
  .objv [("name", .strv "Error"),
         ("message", .strv "No provider for __SURREAL_CONFIG__")]

/-- Injecting (retrieving) `SurrealService` from a scope: the injector returns
its memoized instance if one exists; otherwise it runs the registered factory
`SurrealFactory = () => new SurrealService()` once, with the bound
configuration, and memoizes the result. Only the first injection constructs a
client. -/
def Scope.injectService (d : DriverBehavior) (s : Scope) :
    Except JSVal (SurrealService × Scope) :=
  match s.serviceCache with
  | some svc => .ok (svc, s)
  | none =>
      match s.config with
      | none => .error noProviderError
      | some cfg =>
          match constructService d cfg s.world with
          | .error e => .error e
          | .ok (svc, w') =>
              .ok (svc, { s with serviceCache := some svc, world := w' })

/-- `n` successive injections of `SurrealService` from a scope, collecting the
instances each injection returned. -/
def Scope.injectTimes (d : DriverBehavior) : Nat → Scope →
    Except JSVal (List SurrealService × Scope)
  | 0, s => .ok ([], s)
  | n + 1, s =>
      match s.injectService d with
      | .error e => .error e
      | .ok (svc, s') =>
          match Scope.injectTimes d n s' with
          | .error e => .error e
          | .ok (svcs, s'') => .ok (svc :: svcs, s'')

/-- An Angular `computed` cell over non-reactive state: `computed(fn)` caches
the value of its first read; because `fn` here reads a plain property of a
non-signal object (`this.db`), the computation records no reactive producers
and is therefore never invalidated — every later read returns the cache. -/
structure Computed where
  cache : Option JSVal

/-- Reading an Angular `computed` cell: return the cache if the cell has ever
been read; otherwise run the computation once and cache its value. -/
def Computed.read (compute : Unit → JSVal) (c : Computed) : JSVal × Computed :=
  match c.cache with
  | some v => (v, c)
  | none => (compute (), ⟨some (compute ())⟩)

/-- `surreal.service.ts` line 16:
`connection = computed(() => this.db.connection)`. `dbConnection` is the
driver's live connection object at the moment of the read. -/
def SurrealService.connectionRead (dbConnection : JSVal) (c : Computed) :
    JSVal × Computed :=
  Computed.read (fun _ => dbConnection) c

/-- `surreal.service.ts` line 21: `emitter = computed(() => this.db.emitter)`.
`dbEmitter` is the driver's live emitter object at the moment of the read. -/
def SurrealService.emitterRead (dbEmitter : JSVal) (c : Computed) :
    JSVal × Computed :=
  Computed.read (fun _ => dbEmitter) c

/-- `surreal.service.ts` line 26: `status = computed(() => this.db.status)`.
`dbStatus` is the driver's live connection status at the moment of the read. -/
def SurrealService.statusRead (dbStatus : JSVal) (c : Computed) :
    JSVal × Computed :=
  Computed.read (fun _ => dbStatus) c

/-! Concrete fixtures used by witnesses and counterexamples. -/

/-- A driver behaviour that resolves every call to the same string. -/
def dOk : DriverBehavior := fun _ => .ok (.strv "surrealdb-2.1.0")

/-- A driver behaviour that rejects every call with the same reason. -/
def dErr : DriverBehavior := fun _ => .error (.strv "connection refused")

/-- The empty host state. -/
def w0 : World := ⟨[], 0, []⟩

/-- The README's example configuration. -/
def cfg0 : SurrealConfig :=
  ⟨"http://localhost:8000/rpc",
   [("namespace", .strv "test"), ("database", .strv "test")]⟩

/-- A service instance over `cfg0` whose client is instance number 0. -/
def svc0 : SurrealService := ⟨0, cfg0⟩

/-- A configuration whose url the WHATWG URL constructor rejects. -/
def cfgBadUrl : SurrealConfig := ⟨"", []⟩

/-- A service instance holding the unparsable configuration. -/
def svcBad : SurrealService := ⟨0, cfgBadUrl⟩

/-- A scope in which a `SurrealModule` is already loaded. -/
def scopeLoaded : Scope := ⟨some ⟨⟩, none, none, w0⟩

/-- A fresh scope right after a successful registration of `cfg0`. -/
def scopeRegistered : Scope := ⟨some ⟨⟩, some cfg0, none, w0⟩

/-! Helper lemmas about the embedding. -/

/-- Unpacking a successful `wrap (invoke ...)` equation: the observable wraps
the driver's promise for the one call made, and the log grew by that call. -/
theorem ok_wrap_spec {d : DriverBehavior} {cid : Nat} {m : String}
    {as : List JSVal} {w : World} {obs : Observable} {w' : World}
    (h : (Except.ok (wrap (invoke d cid m as w)) :
        Except JSVal (Observable × World)) = .ok (obs, w')) :
    ∃ c : DriverCall, c.clientId = cid ∧ obs = ⟨d c⟩ ∧
      w' = { w with driverLog := w.driverLog ++ [c] } := by
  refine ⟨⟨cid, m, as⟩, rfl, ?_, ?_⟩ <;> injection h with h'
  · exact (congrArg Prod.fst h').symm
  · exact (congrArg Prod.snd h').symm

/-- Every successful adapter call performs exactly one driver call, on the
service's own client, and returns the observable wrapping that call's
promise. -/
theorem callOp_spec {d : DriverBehavior} {svc : SurrealService}
    {op : AdapterOp} {args : List JSVal} {w : World} {obs : Observable}
    {w' : World} (hok : callOp d svc op args w = .ok (obs, w')) :
    ∃ c : DriverCall, c.clientId = svc.clientId ∧ obs = ⟨d c⟩ ∧
      w' = { w with driverLog := w.driverLog ++ [c] } := by
  cases op <;>
    first
      | exact ok_wrap_spec hok
      | (simp only [callOp, SurrealService.connect, SurrealService.insert,
           SurrealService.insertRelation, SurrealService.run] at hok
         split at hok <;>
           first
             | exact ok_wrap_spec hok
             | simp at hok)

/-- Every adapter method other than `connect` never throws synchronously: it
always returns the observable for exactly one driver call made on the
service's client. -/
theorem callOp_total (d : DriverBehavior) (svc : SurrealService)
    (op : AdapterOp) (args : List JSVal) (w : World)
    (h : op ≠ AdapterOp.connectOp) :
    ∃ c : DriverCall, callOp d svc op args w =
      .ok (⟨d c⟩, { w with driverLog := w.driverLog ++ [c] }) ∧
      c.clientId = svc.clientId := by
  cases op <;>
    first
      | exact absurd rfl h
      | exact ⟨_, rfl, rfl⟩
      | (simp only [callOp, SurrealService.insert, SurrealService.insertRelation,
           SurrealService.run]
         split <;> exact ⟨_, rfl, rfl⟩)

/-- `subscribe()` without a handler never touches the driver log. -/
theorem subscribeNoHandler_driverLog (o : Observable) (w : World) :
    (subscribeNoHandler o w).driverLog = w.driverLog := by
  unfold subscribeNoHandler; split <;> rfl

/-- `subscribe()` without a handler never constructs a client. -/
theorem subscribeNoHandler_clientsCreated (o : Observable) (w : World) :
    (subscribeNoHandler o w).clientsCreated = w.clientsCreated := by
  unfold subscribeNoHandler; split <;> rfl

/-- Once the injector memoized a service instance, every further injection
returns that same instance and leaves the scope untouched. -/
theorem injectTimes_cached {svc : SurrealService} (d : DriverBehavior)
    (n : Nat) (s : Scope) (h : s.serviceCache = some svc) :
    Scope.injectTimes d n s = .ok (List.replicate n svc, s) := by
  induction n with
  | zero => rfl
  | succ n ih =>
      simp only [Scope.injectTimes, Scope.injectService, h, ih, List.replicate]

/-- Sanity: the README's example url parses, and the url is kept as is. -/
theorem parseURL_example :
    parseURL "http://localhost:8000/rpc" = some "http://localhost:8000/rpc" :=
  rfl

/-- Sanity: the empty string and a scheme-less string are not URLs. -/
theorem parseURL_rejects :
    parseURL "" = none ∧ parseURL "not a url" = none := ⟨rfl, rfl⟩

/-- C1: For every wrapped operation, if the underlying driver call resolves to
a value `v`, then the stream returned by the corresponding adapter method
emits exactly one value equal to `v`, then completes, and makes no further
emissions. -/
theorem adapterEmitsDriverValueOnce (d : DriverBehavior) (svc : SurrealService)
    (op : AdapterOp) (args : List JSVal) (w : World) (obs : Observable)
    (w' : World) (v : JSVal)
    (hok : callOp d svc op args w = .ok (obs, w'))
    (hd : ∀ c, d c = .ok v) :
    obs.subscribeEvents = [RxEvent.next v, RxEvent.complete] := by
  obtain ⟨c, -, hobs, -⟩ := callOp_spec hok
  rw [hobs]
  simp [Observable.subscribeEvents, hd c]

/-- Witness for C1 at a concrete input: `version()` with a driver resolving to
the version string emits that string once, then completes. -/
theorem adapterEmitsDriverValueOnce_witness :
    callOp dOk svc0 AdapterOp.versionOp [] w0 =
      .ok (⟨.ok (.strv "surrealdb-2.1.0")⟩,
        { w0 with driverLog := [⟨0, "version", []⟩] }) ∧
    Observable.subscribeEvents ⟨.ok (.strv "surrealdb-2.1.0")⟩ =
      [RxEvent.next (.strv "surrealdb-2.1.0"), RxEvent.complete] :=
  ⟨rfl, adapterEmitsDriverValueOnce dOk svc0 AdapterOp.versionOp [] w0
    ⟨.ok (.strv "surrealdb-2.1.0")⟩
    { w0 with driverLog := [⟨0, "version", []⟩] }
    (.strv "surrealdb-2.1.0") rfl (fun _ => rfl)⟩

/-- C2: For every wrapped operation, if the underlying driver call rejects
with reason `e`, then the returned stream emits exactly one error equal to `e`
and no value: the adapter catches, retries and transforms nothing. -/
theorem adapterPropagatesDriverRejection (d : DriverBehavior)
    (svc : SurrealService) (op : AdapterOp) (args : List JSVal) (w : World)
    (obs : Observable) (w' : World) (e : JSVal)
    (hok : callOp d svc op args w = .ok (obs, w'))
    (hd : ∀ c, d c = .error e) :
    obs.subscribeEvents = [RxEvent.error e] := by
  obtain ⟨c, -, hobs, -⟩ := callOp_spec hok
  rw [hobs]
  simp [Observable.subscribeEvents, hd c]

/-- Witness for C2 at a concrete input: `signin(vars)` with a driver rejecting
every call emits exactly that rejection reason and no value. -/
theorem adapterPropagatesDriverRejection_witness :
    callOp dErr svc0 AdapterOp.signinOp
      [.objv [("scope", .strv "user"), ("email", .strv "bad@x.com")]] w0 =
      .ok (⟨.error (.strv "connection refused")⟩,
        { w0 with driverLog := [⟨0, "signin",
          [.objv [("scope", .strv "user"), ("email", .strv "bad@x.com")]]⟩] }) ∧
    Observable.subscribeEvents ⟨.error (.strv "connection refused")⟩ =
      [RxEvent.error (.strv "connection refused")] :=
  ⟨rfl, adapterPropagatesDriverRejection dErr svc0 AdapterOp.signinOp
    [.objv [("scope", .strv "user"), ("email", .strv "bad@x.com")]] w0
    ⟨.error (.strv "connection refused")⟩
    { w0 with driverLog := [⟨0, "signin",
      [.objv [("scope", .strv "user"), ("email", .strv "bad@x.com")]]⟩] }
    (.strv "connection refused") rfl (fun _ => rfl)⟩

/-- C3: Registering the module a second time within the same overlapping
dependency scope throws the duplicate-registration error synchronously (the
registration returns the thrown error, not a stream), leaves the scope
unchanged, and in particular constructs no second client instance. -/
theorem duplicateRegistrationThrowsNoSecondClient (config : SurrealConfig)
    (s : Scope) (m : SurrealModule) (h : s.moduleInstance = some m) :
    Scope.register config s = (.error duplicateModuleError, s) ∧
    (Scope.register config s).2.world.clientsCreated =
      s.world.clientsCreated := by
  have hreg : Scope.register config s = (.error duplicateModuleError, s) := by
    simp [Scope.register, constructModule, h]
  exact ⟨hreg, by rw [hreg]⟩

/-- Witness for C3 at a concrete input: a scope that already holds a
`SurrealModule` instance. -/
theorem duplicateRegistrationThrowsNoSecondClient_witness :
    scopeLoaded.moduleInstance = some ⟨⟩ ∧
    (Scope.register cfg0 scopeLoaded =
      (.error duplicateModuleError, scopeLoaded) ∧
    (Scope.register cfg0 scopeLoaded).2.world.clientsCreated =
      scopeLoaded.world.clientsCreated) :=
  ⟨rfl, duplicateRegistrationThrowsNoSecondClient cfg0 scopeLoaded ⟨⟩ rfl⟩

/-- C5: Constructing the adapter service triggers exactly one connect attempt
— a single driver `connect` call carrying the URL object built from the
registered configuration's url and the remaining configured options — before
any explicit adapter method call is made, and constructs exactly one client. -/
theorem constructionTriggersOneConnect (d : DriverBehavior)
    (cfg : SurrealConfig) (w : World) (href : String)
    (hurl : parseURL cfg.url = some href) :
    ∃ svc w', constructService d cfg w = .ok (svc, w') ∧
      svc.clientId = w.clientsCreated ∧ svc.config = cfg ∧
      w'.driverLog = w.driverLog ++
        [⟨w.clientsCreated, "connect", [.urlv href, .objv cfg.options]⟩] ∧
      w'.clientsCreated = w.clientsCreated + 1 := by
  refine ⟨⟨w.clientsCreated, cfg⟩,
    subscribeNoHandler
      ⟨d ⟨w.clientsCreated, "connect", [.urlv href, .objv cfg.options]⟩⟩
      { w with clientsCreated := w.clientsCreated + 1,
               driverLog := w.driverLog ++
                 [⟨w.clientsCreated, "connect",
                   [.urlv href, .objv cfg.options]⟩] },
    ?_, rfl, rfl, ?_, ?_⟩
  · simp [constructService, SurrealService.connect, hurl, wrap, invoke, rxFrom]
  · rw [subscribeNoHandler_driverLog]
  · rw [subscribeNoHandler_clientsCreated]

/-- Witness for C5 at a concrete input: construction over the README's
example configuration performs exactly the one `connect` driver call. -/
theorem constructionTriggersOneConnect_witness :
    parseURL cfg0.url = some "http://localhost:8000/rpc" ∧
    ∃ svc w', constructService dOk cfg0 w0 = .ok (svc, w') ∧
      svc.clientId = w0.clientsCreated ∧ svc.config = cfg0 ∧
      w'.driverLog = w0.driverLog ++
        [⟨w0.clientsCreated, "connect",
          [.urlv "http://localhost:8000/rpc", .objv cfg0.options]⟩] ∧
      w'.clientsCreated = w0.clientsCreated + 1 :=
  ⟨rfl, constructionTriggersOneConnect dOk cfg0 w0
    "http://localhost:8000/rpc" rfl⟩

/-- C4: After a single registration, however many times the service is
injected, all injections return one and the same service instance, exactly
one client instance is constructed, the instance holds the one registered
configuration, and every adapter method invoked through it drives that single
client (every driver call it adds to the log carries its client id). -/
theorem singleClientAcrossInjections (d : DriverBehavior)
    (cfg : SurrealConfig) (s : Scope) (n : Nat) (href : String)
    (hcache : s.serviceCache = none)
    (hcfg : s.config = some cfg)
    (hurl : parseURL cfg.url = some href) :
    ∃ svc s', Scope.injectTimes d (n + 1) s =
        .ok (List.replicate (n + 1) svc, s') ∧
      s'.world.clientsCreated = s.world.clientsCreated + 1 ∧
      s'.serviceCache = some svc ∧
      svc.config = cfg ∧ svc.clientId = s.world.clientsCreated ∧
      (∀ op args w1 obs w2, callOp d svc op args w1 = .ok (obs, w2) →
        ∀ c ∈ w2.driverLog.drop w1.driverLog.length,
          c.clientId = svc.clientId) := by
  have hconstruct : constructService d cfg s.world =
      .ok (⟨s.world.clientsCreated, cfg⟩,
        subscribeNoHandler
          ⟨d ⟨s.world.clientsCreated, "connect",
            [.urlv href, .objv cfg.options]⟩⟩
          { s.world with clientsCreated := s.world.clientsCreated + 1,
                         driverLog := s.world.driverLog ++
                           [⟨s.world.clientsCreated, "connect",
                             [.urlv href, .objv cfg.options]⟩] }) := by
    simp [constructService, SurrealService.connect, hurl, wrap, invoke, rxFrom]
  have hinj : s.injectService d =
      .ok (⟨s.world.clientsCreated, cfg⟩,
        { s with serviceCache := some ⟨s.world.clientsCreated, cfg⟩,
                 world := subscribeNoHandler
                   ⟨d ⟨s.world.clientsCreated, "connect",
                     [.urlv href, .objv cfg.options]⟩⟩
                   { s.world with clientsCreated := s.world.clientsCreated + 1,
                                  driverLog := s.world.driverLog ++
                                    [⟨s.world.clientsCreated, "connect",
                                      [.urlv href, .objv cfg.options]⟩] } }) := by
    simp [Scope.injectService, hcache, hcfg, hconstruct]
  refine ⟨⟨s.world.clientsCreated, cfg⟩,
    { s with serviceCache := some ⟨s.world.clientsCreated, cfg⟩,
             world := subscribeNoHandler
               ⟨d ⟨s.world.clientsCreated, "connect",
                 [.urlv href, .objv cfg.options]⟩⟩
               { s.world with clientsCreated := s.world.clientsCreated + 1,
                              driverLog := s.world.driverLog ++
                                [⟨s.world.clientsCreated, "connect",
                                  [.urlv href, .objv cfg.options]⟩] } },
    ?_, ?_, rfl, rfl, rfl, ?_⟩
  · simp only [Scope.injectTimes, hinj]
    rw [injectTimes_cached d n _ rfl]
    simp [List.replicate_succ]
  · simp [subscribeNoHandler_clientsCreated]
  · intro op args w1 obs w2 hok c hc
    obtain ⟨c0, hcid, -, hw2⟩ := callOp_spec hok
    rw [hw2] at hc
    simp only [List.drop_left] at hc
    simp only [List.mem_singleton] at hc
    rw [hc]
    exact hcid

/-- Witness for C4 at a concrete input: three injections from the freshly
registered scope. -/
theorem singleClientAcrossInjections_witness :
    scopeRegistered.serviceCache = none ∧
    scopeRegistered.config = some cfg0 ∧
    parseURL cfg0.url = some "http://localhost:8000/rpc" ∧
    ∃ svc s', Scope.injectTimes dOk (2 + 1) scopeRegistered =
        .ok (List.replicate (2 + 1) svc, s') ∧
      s'.world.clientsCreated = scopeRegistered.world.clientsCreated + 1 ∧
      s'.serviceCache = some svc ∧
      svc.config = cfg0 ∧
      svc.clientId = scopeRegistered.world.clientsCreated ∧
      (∀ op args w1 obs w2, callOp dOk svc op args w1 = .ok (obs, w2) →
        ∀ c ∈ w2.driverLog.drop w1.driverLog.length,
          c.clientId = svc.clientId) :=
  ⟨rfl, rfl, rfl, singleClientAcrossInjections dOk cfg0 scopeRegistered 2
    "http://localhost:8000/rpc" rfl rfl rfl⟩

/-- C6 counterexample: calling `ping()` performs the driver call at method
invocation time — before any subscription exists, the driver log has already
grown — so the call is not performed "only upon subscription". -/
theorem driverCallPrecedesSubscription_counterexample :
    callOp dOk svc0 AdapterOp.pingOp [] w0 =
      .ok (⟨.ok (.strv "surrealdb-2.1.0")⟩,
        { w0 with driverLog := [⟨0, "ping", []⟩] }) ∧
    ({ w0 with driverLog := [⟨0, "ping", []⟩] } : World).driverLog ≠
      w0.driverLog := by
  refine ⟨rfl, ?_⟩
  simp [w0]

/-- C6 as amended: each adapter method performs its driver call exactly once,
at the moment the method itself is invoked; the returned stream wraps that
single call's settled promise, so every subscription observes the same
outcome and none re-invokes the driver (subscription is a pure function of
the returned observable). -/
theorem driverCallOnceAtInvocation (d : DriverBehavior) (svc : SurrealService)
    (op : AdapterOp) (args : List JSVal) (w : World) (obs : Observable)
    (w' : World) (hok : callOp d svc op args w = .ok (obs, w')) :
    ∃ c, w'.driverLog = w.driverLog ++ [c] ∧
      obs.subscribeEvents = Observable.subscribeEvents ⟨d c⟩ := by
  obtain ⟨c, -, hobs, hw⟩ := callOp_spec hok
  exact ⟨c, by rw [hw], by rw [hobs]⟩

/-- Witness for C6's amended statement at a concrete input: `close()`. -/
theorem driverCallOnceAtInvocation_witness :
    callOp dOk svc0 AdapterOp.closeOp [] w0 =
      .ok (⟨.ok (.strv "surrealdb-2.1.0")⟩,
        { w0 with driverLog := [⟨0, "close", []⟩] }) ∧
    ∃ c, ({ w0 with driverLog := [⟨0, "close", []⟩] } : World).driverLog =
        w0.driverLog ++ [c] ∧
      Observable.subscribeEvents ⟨.ok (.strv "surrealdb-2.1.0")⟩ =
        Observable.subscribeEvents ⟨dOk c⟩ :=
  ⟨rfl, driverCallOnceAtInvocation dOk svc0 AdapterOp.closeOp [] w0
    ⟨.ok (.strv "surrealdb-2.1.0")⟩
    { w0 with driverLog := [⟨0, "close", []⟩] } rfl⟩

/-- C7, evaluated at the failing input: the caller invokes
`run("fn::greet", ["x"])` — the two-argument overload whose second parameter
is the function's argument list — and the adapter forwards
`db.run("fn::greet", undefined)`, substituting `undefined` for the supplied
array instead of passing it through unchanged. -/
theorem runDropsArgumentList :
    callOp dOk svc0 AdapterOp.runOp
      [JSVal.strv "fn::greet", JSVal.arrv [JSVal.strv "x"]] w0 =
      .ok (⟨.ok (.strv "surrealdb-2.1.0")⟩,
        { w0 with driverLog :=
          [⟨0, "run", [JSVal.strv "fn::greet", JSVal.undef]⟩] }) ∧
    [JSVal.strv "fn::greet", JSVal.undef] ≠
      [JSVal.strv "fn::greet", JSVal.arrv [JSVal.strv "x"]] := by
  refine ⟨rfl, ?_⟩
  simp

/-- C8 counterexample: the status accessor reads `connecting` while the
driver is connecting; after the driver's status becomes `connected`, a second
read still returns the cached `connecting` — not the driver's current live
state. -/
theorem statusAccessorStale_counterexample :
    SurrealService.statusRead (.strv "connecting") ⟨none⟩ =
      (.strv "connecting", ⟨some (.strv "connecting")⟩) ∧
    SurrealService.statusRead (.strv "connected")
      ⟨some (.strv "connecting")⟩ =
      (.strv "connecting", ⟨some (.strv "connecting")⟩) ∧
    JSVal.strv "connecting" ≠ JSVal.strv "connected" := by
  refine ⟨rfl, rfl, ?_⟩
  simp

/-- C8 as amended: each accessor (`connection`, `emitter`, `status`) returns
the driver state captured at its first read and keeps returning that cached
value on later reads — the Angular `computed` has no reactive dependencies
and never recomputes; reads never invoke the driver and modify nothing but
the accessor's own cache. -/
theorem accessorsCacheFirstRead (conn1 conn2 em1 em2 st1 st2 : JSVal) :
    (SurrealService.connectionRead conn1 ⟨none⟩).1 = conn1 ∧
    (SurrealService.connectionRead conn2
      (SurrealService.connectionRead conn1 ⟨none⟩).2).1 = conn1 ∧
    (SurrealService.emitterRead em1 ⟨none⟩).1 = em1 ∧
    (SurrealService.emitterRead em2
      (SurrealService.emitterRead em1 ⟨none⟩).2).1 = em1 ∧
    (SurrealService.statusRead st1 ⟨none⟩).1 = st1 ∧
    (SurrealService.statusRead st2
      (SurrealService.statusRead st1 ⟨none⟩).2).1 = st1 :=
  ⟨rfl, rfl, rfl, rfl, rfl, rfl⟩

/-- C9 counterexample: with a configured url the URL constructor rejects,
`connect` throws a `TypeError` synchronously — an error raised by this layer
itself, distinct from the duplicate-registration error, delivered on no
stream. -/
theorem connectThrowsSynchronously_counterexample :
    callOp dOk svcBad AdapterOp.connectOp [] w0 =
      .error (invalidURLError "") ∧
    invalidURLError "" ≠ duplicateModuleError := by
  refine ⟨rfl, ?_⟩
  simp [invalidURLError, duplicateModuleError]

/-- C9 as amended: besides the duplicate-registration error, the only
synchronous throw this layer can produce is the URL-parse `TypeError` in
`connect`; every adapter method other than `connect` never throws
synchronously and delivers exactly the driver's outcome for the one call it
forwards, and the module's guard raises exactly the duplicate-registration
error. -/
theorem onlyConnectThrowsBesidesDuplicateGuard (d : DriverBehavior)
    (svc : SurrealService) (op : AdapterOp) (args : List JSVal) (w : World)
    (h : op ≠ AdapterOp.connectOp) :
    (∃ c : DriverCall, callOp d svc op args w =
      .ok (⟨d c⟩, { w with driverLog := w.driverLog ++ [c] })) ∧
    (∀ m : SurrealModule, constructModule (some m) =
      .error duplicateModuleError) := by
  obtain ⟨c, hc, -⟩ := callOp_total d svc op args w h
  exact ⟨⟨c, hc⟩, fun _ => rfl⟩

/-- Witness for C9's amended statement at a concrete input: `ping`. -/
theorem onlyConnectThrowsBesidesDuplicateGuard_witness :
    AdapterOp.pingOp ≠ AdapterOp.connectOp ∧
    ((∃ c : DriverCall, callOp dOk svc0 AdapterOp.pingOp [] w0 =
      .ok (⟨dOk c⟩, { w0 with driverLog := w0.driverLog ++ [c] })) ∧
    (∀ m : SurrealModule, constructModule (some m) =
      .error duplicateModuleError)) :=
  ⟨by decide, onlyConnectThrowsBesidesDuplicateGuard dOk svc0
    AdapterOp.pingOp [] w0 (by decide)⟩

/-- C10: the constructor's `this.connect().subscribe()` passes no error
handler, so when the driver's connect promise rejects, the rejection reaches
the host as an unhandled error on no caller-observable stream, while the
adapter instance is still constructed and every (non-`connect`) method on it
remains callable. -/
theorem constructorRejectionUnhandledYetUsable (d : DriverBehavior)
    (cfg : SurrealConfig) (w : World) (href : String) (e : JSVal)
    (hurl : parseURL cfg.url = some href)
    (hrej : d ⟨w.clientsCreated, "connect",
      [.urlv href, .objv cfg.options]⟩ = .error e) :
    ∃ svc w', constructService d cfg w = .ok (svc, w') ∧
      w'.unhandledErrors = w.unhandledErrors ++ [e] ∧
      ∀ op args w1, op ≠ AdapterOp.connectOp →
        ∃ obs w2, callOp d svc op args w1 = .ok (obs, w2) := by
  refine ⟨⟨w.clientsCreated, cfg⟩,
    subscribeNoHandler
      ⟨d ⟨w.clientsCreated, "connect", [.urlv href, .objv cfg.options]⟩⟩
      { w with clientsCreated := w.clientsCreated + 1,
               driverLog := w.driverLog ++
                 [⟨w.clientsCreated, "connect",
                   [.urlv href, .objv cfg.options]⟩] },
    ?_, ?_, ?_⟩
  · simp [constructService, SurrealService.connect, hurl, wrap, invoke, rxFrom]
  · simp [subscribeNoHandler, hrej]
  · intro op args w1 hop
    obtain ⟨c, hc, -⟩ := callOp_total d _ op args w1 hop
    exact ⟨_, _, hc⟩

/-- Witness for C10 at a concrete input: constructing over the README's
configuration with a driver that rejects everything still yields a usable
service, with the rejection recorded as unhandled. -/
theorem constructorRejectionUnhandledYetUsable_witness :
    parseURL cfg0.url = some "http://localhost:8000/rpc" ∧
    dErr ⟨w0.clientsCreated, "connect",
      [.urlv "http://localhost:8000/rpc", .objv cfg0.options]⟩ =
      .error (.strv "connection refused") ∧
    ∃ svc w', constructService dErr cfg0 w0 = .ok (svc, w') ∧
      w'.unhandledErrors = w0.unhandledErrors ++ [.strv "connection refused"] ∧
      ∀ op args w1, op ≠ AdapterOp.connectOp →
        ∃ obs w2, callOp dErr svc op args w1 = .ok (obs, w2) :=
  ⟨rfl, rfl, constructorRejectionUnhandledYetUsable dErr cfg0 w0
    "http://localhost:8000/rpc" (.strv "connection refused") rfl rfl⟩
